
import Mathlib

/-!
Verification of the containerized-strands-agents orchestrator and worker.

This file shallowly embeds the code of `docker/agent_runner.py` (the worker
control-plane) and `src/containerized_strands_agents/agent_manager.py` (the
orchestrator) and proves or refutes the frozen specification claims about
them.  Machine state (the JSON registry file, the per-agent message store,
the Docker runtime) is passed explicitly; external effects are recorded in
an event trace; fallible external calls are parameters (oracles) of the
embedded functions.
-/

namespace Worker

/-- Embeds `health` from `docker/agent_runner.py` (lines 217-220): the
response dictionary is literally `{"status": "healthy", "agent_id": AGENT_ID}`,
modelled as an association list from field name to string value. -/
def healthResponse (agentId : String) : List (String × String) :=
  [("status", "healthy"), ("agent_id", agentId)]

/-- Phase of one inbound `/chat` request inside the worker process. -/
inductive Phase where
  | idle
  | arrived
  | running
  | done
  deriving DecidableEq, Repr

/-- Step relation of the worker's `chat` handler in `docker/agent_runner.py`
(lines 223-246) for a fixed set of inbound requests, indexed by position in a
list of phases.  The handler body is `await loop.run_in_executor(None, agent,
request.message)`: each request, once arrived, is submitted straight to the
shared thread pool (whose default size exceeds one), with no queue, lock, or
other cross-request guard.  Hence a request may start or finish regardless of
the phase of every other request — the guard of each step mentions only the
stepping request's own phase, exactly as in the handler. -/
inductive ChatStep : List Phase → List Phase → Prop where
  | arriveStep (s : List Phase) (i : Nat) (h : s.get? i = some .idle) :
      ChatStep s (s.set i .arrived)
  | startStep (s : List Phase) (i : Nat) (h : s.get? i = some .arrived) :
      ChatStep s (s.set i .running)
  | finishStep (s : List Phase) (i : Nat) (h : s.get? i = some .running) :
      ChatStep s (s.set i .done)

/-- Reachability under the worker's chat-handler step relation. -/
def ChatReach : List Phase → List Phase → Prop :=
  Relation.ReflTransGen ChatStep

end Worker

namespace Manager

/-- Minimal JSON value type for the persisted message files read by
`get_messages` in `agent_manager.py`. -/
inductive Json where
  | jnull
  | jbool (b : Bool)
  | jnum (n : Int)
  | jstr (s : String)
  | jarr (elems : List Json)
  | jobj (fields : List (String × Json))

/-- `dict.get key` on a JSON object: first binding of the key, if any. -/
def jsonGet : List (String × Json) → String → Option Json
  | [], _ => none
  | (k, v) :: rest, key => if k = key then some v else jsonGet rest key

/-- Embeds `AgentInfo` from `agent_manager.py` (lines 31-40).  Timestamps
(ISO-8601 strings in the code, compared after `datetime.fromisoformat`) are
modelled as rational numbers of seconds since a fixed epoch. -/
structure AgentInfo where
  agent_id : String
  container_id : Option String := none
  container_name : String
  port : Nat
  status : String
  created_at : Rat
  last_activity : Rat
  data_dir : Option String := none
  deriving DecidableEq, Repr

/-- The registry: the parsed contents of the tasks JSON file, a mapping from
agent id to record.  Python dicts preserve insertion order and have unique
keys; we model the file as an association list. -/
abbrev Registry := List (String × AgentInfo)

/-- `agents[agent.agent_id] = agent` on a Python dict: replace the existing
binding in place, else append.  Used to embed `TaskTracker.update_agent`. -/
def setKey : Registry → String → AgentInfo → Registry
  | [], k, a => [(k, a)]
  | (k', a') :: rest, k, a =>
      if k' = k then (k, a) :: rest else (k', a') :: setKey rest k a

/-- `agents.get(agent_id)` on the registry dict. -/
def lookupReg : Registry → String → Option AgentInfo
  | [], _ => none
  | (k', a') :: rest, k => if k' = k then some a' else lookupReg rest k

/-- Outcome of `container.stop` / `containers.get` inside `stop_agent`:
the stop succeeded, the container was absent (`NotFound`), or some other
exception was raised. -/
inductive StopOutcome where
  | ok
  | notFound
  | failed (msg : String)
  deriving DecidableEq, Repr

/-- Oracle for the Docker runtime and the per-agent disk state consulted by
the orchestrator: whether a container id is currently running
(`_is_container_running`), the result of `containers.run` for a container
name (`Except` = `APIError`), whether `_wait_for_container_ready` succeeds on
a port, the outcome of stopping a container id, and whether an agent has an
existing persisted session (`_has_existing_session`). -/
structure DockerEnv where
  isRunning : String → Bool
  runResult : String → Except String String
  waitReady : Nat → Bool
  stopResult : String → StopOutcome
  hasSession : String → Bool

/-- External effects performed by the orchestrator, in program order. -/
inductive Ev where
  | registrySave (r : Registry)
  | containerRemove (name : String)
  | containerRun (name : String)
  | containerStop (cid : String)
  | promptWrite (agentId : String) (content : String)
  | toolsCopy (agentId : String)
  | chatSpawn (agentId : String) (port : Nat) (message : String)
  deriving DecidableEq, Repr

/-- Whether an event acts on a container (creation, start or stop). -/
def Ev.isContainerAction : Ev → Bool
  | .containerRemove _ => true
  | .containerRun _ => true
  | .containerStop _ => true
  | _ => false

/-- Value in a response dictionary returned by the public operations. -/
inductive RVal where
  | str (s : String)
  | bool (b : Bool)
  | optStr (o : Option String)
  | msgs (l : List Json)

/-- A response dictionary, as an ordered association list. -/
abbrev Resp := List (String × RVal)

/-- `resp[key]` lookup in a response dictionary. -/
def respGet : Resp → String → Option RVal
  | [], _ => none
  | (k, v) :: rest, key => if k = key then some v else respGet rest key

/-- `msg_data.get("message", msg_data)` in the disk branch of `get_messages`
(line 595): on a JSON object, take the `message` field if present, else the
whole object; on any other JSON value `.get` raises `AttributeError`
(modelled as `none`, caught by the surrounding `try`). -/
def extractMessage : Json → Option Json
  | .jobj fields => some ((jsonGet fields "message").getD (.jobj fields))
  | _ => none

/-- Insert one message file into a list sorted by index (stable, like
Python's `sorted` keyed on `int(f.stem.split("_")[1])`). -/
def insertByIdx (x : Nat × Option Json) :
    List (Nat × Option Json) → List (Nat × Option Json)
  | [] => [x]
  | y :: ys => if x.1 ≤ y.1 then x :: y :: ys else y :: insertByIdx x ys

/-- `sorted(message_files, key=...)`: sort the directory listing by message
index (agent_manager.py lines 587-590). -/
def sortByIdx : List (Nat × Option Json) → List (Nat × Option Json)
  | [] => []
  | x :: xs => insertByIdx x (sortByIdx xs)

/-- The loop of agent_manager.py lines 592-596: parse every message file in
order and unwrap the `message` key.  `none` models the first raised
exception (a corrupt file aborts the whole loop, since the `try` encloses
it). -/
def parseAllFiles : List (Nat × Option Json) → Option (List Json)
  | [] => some []
  | f :: rest =>
      match f.2.bind extractMessage with
      | none => none
      | some m =>
          match parseAllFiles rest with
          | none => none
          | some ms => some (m :: ms)

/-- The whole disk fallback of `get_messages`: sort the files by index, then
parse them all; `none` models the `except` branch at line 601. -/
def readDiskMessages (files : List (Nat × Option Json)) : Option (List Json) :=
  parseAllFiles (sortByIdx files)

/-- `messages[-count:] if count > 0 else messages` (line 599). -/
def lastCount (count : Int) (messages : List Json) : List Json :=
  if count > 0 then messages.drop (messages.length - count.toNat) else messages

/-- Embeds `get_messages` from `agent_manager.py` (lines 552-604).
Parameters beyond the registry: `histResult` is the outcome of the HTTP
`GET /history` call to a live container (`.error` = any exception, which the
code logs before falling through to the disk path); `diskDir` is the state
of the agent's persisted messages directory (`none` = the directory does not
exist), each file given as its index together with the outcome of
`json.loads` on its contents (`none` = parse error).  The function performs
no registry write (there is no `tracker.save` call in the source), so the
registry is returned unchanged alongside the response. -/
def getMessages (env : DockerEnv) (reg : Registry) (agentId : String)
    (histResult : Except String (List Json))
    (diskDir : Option (List (Nat × Option Json))) (count : Int) :
    Registry × Resp :=
  match lookupReg reg agentId with
  | none =>
      (reg, [("status", .str "error"),
             ("error", .str ("Agent " ++ agentId ++ " not found"))])
  | some agent =>
      let base : Resp :=
        [("status", .str "success"), ("agent_id", .str agentId),
         ("container_id", .optStr agent.container_id),
         ("processing", .bool false)]
      let live : Option (List Json) :=
        match agent.container_id with
        | some cid =>
            if env.isRunning cid then
              match histResult with
              | .ok msgs => some msgs
              | .error _ => none
            else none
        | none => none
      match live with
      | some msgs => (reg, base ++ [("messages", .msgs msgs)])
      | none =>
          match diskDir with
          | none => (reg, base ++ [("messages", .msgs [])])
          | some files =>
              match readDiskMessages files with
              | none => (reg, base ++ [("messages", .msgs [])])
              | some messages =>
                  (reg, base ++ [("messages", .msgs (lastCount count messages))])

/-- Mutable orchestrator state: the registry file plus the port-allocator
counter `self._port_counter` (seeded at 9000 in `AgentManager.__init__`). -/
structure MState where
  reg : Registry
  portCounter : Nat

/-- The `while self._port_counter in used_ports` loop of `_get_next_port`
(lines 143-144), written with explicit fuel.  `used.length + 1` steps always
suffice, since each collision consumes one distinct member of `used`. -/
def nextFree : Nat → List Nat → Nat → Nat
  | 0, _, c => c
  | fuel + 1, used, c => if c ∈ used then nextFree fuel used (c + 1) else c

/-- Embeds `_get_next_port` (agent_manager.py lines 139-147): recompute the
ports held by every registry record, skip collisions starting from the
counter, return the port and advance the counter past it. -/
def getNextPort (st : MState) : Nat × MState :=
  let used := st.reg.map (fun e => e.2.port)
  let p := nextFree (used.length + 1) used st.portCounter
  (p, { st with portCounter := p + 1 })

/-- Embeds `stop_agent` (agent_manager.py lines 634-652).  Returns the
boolean result, the new registry, and the events performed.  On a successful
container stop or a `NotFound` the record is marked `stopped` and persisted;
on any other exception the function logs and returns `False` without
touching the record. -/
def stopAgent (env : DockerEnv) (reg : Registry) (agentId : String) :
    Bool × Registry × List Ev :=
  match lookupReg reg agentId with
  | none => (false, reg, [])
  | some agent =>
      match agent.container_id with
      | none => (false, reg, [])
      | some cid =>
          match env.stopResult cid with
          | .ok =>
              let a2 := { agent with status := "stopped" }
              let r2 := setKey reg agent.agent_id a2
              (true, r2, [Ev.containerStop cid, Ev.registrySave r2])
          | .notFound =>
              let a2 := { agent with status := "stopped" }
              let r2 := setKey reg agent.agent_id a2
              (true, r2, [Ev.registrySave r2])
          | .failed _ => (false, reg, [])

/-- Embeds `list_agents` (agent_manager.py lines 606-624): load the
registry, recompute each record's status from the actual container state for
the response, attach `processing = False`, and return the list.  The
function contains no `tracker.save`, so the registry file and the event
trace components record that nothing was written. -/
def listAgents (env : DockerEnv) (reg : Registry) :
    Registry × List Ev × List (AgentInfo × Bool) :=
  (reg, [],
   reg.map (fun e =>
     let a := e.2
     let a2 :=
       match a.container_id with
       | some cid =>
           if env.isRunning cid then { a with status := "running" }
           else { a with status := "stopped" }
       | none => a
     (a2, false)))

/-- Well-formedness of a registry file as written by the manager itself:
every binding's key is its record's `agent_id` (bindings are always written
as `agents[agent.agent_id] = agent`) and keys are unique (it is a dict). -/
def WFReg (r : Registry) : Prop :=
  (∀ e ∈ r, e.1 = e.2.agent_id) ∧ (r.map Prod.fst).Nodup

/-- The body of `cleanup_idle_agents` (agent_manager.py lines 654-668): walk
the snapshot of registry records loaded at the start of the sweep, threading
the current registry; skip records not in `running` status; compute
`idle_minutes = (now − last_activity) / 60`; invoke `stop_agent` when it
strictly exceeds the configured threshold. -/
def sweep (env : DockerEnv) (now timeout : Rat) :
    List (String × AgentInfo) → Registry → Registry × List Ev
  | [], r => (r, [])
  | entry :: rest, r =>
      if entry.2.status = "running" ∧
          (now - entry.2.last_activity) / 60 > timeout then
        let res := stopAgent env r entry.2.agent_id
        let tail := sweep env now timeout rest res.2.1
        (tail.1, res.2.2 ++ tail.2)
      else sweep env now timeout rest r

/-- Embeds `cleanup_idle_agents`: one full sweep over the registry loaded at
tick time. -/
def cleanupIdleAgents (env : DockerEnv) (now timeout : Rat)
    (reg : Registry) : Registry × List Ev :=
  sweep env now timeout reg reg

/-- What the host path given as `system_prompt_file` resolves to: no entry,
an entry that is not a regular file, or a regular file with some content. -/
inductive FsEntry where
  | missing
  | notAFile
  | file (content : String)

/-- Embeds `_read_system_prompt_file` (agent_manager.py lines 230-262):
missing path, non-file path and empty (after strip) content each raise;
otherwise the stripped content is returned.  `Except.error` carries the
exception message. -/
def readSystemPromptFile : FsEntry → Except String String
  | .missing => .error "System prompt file not found"
  | .notAFile => .error "Path is not a file"
  | .file c =>
      if c.trim = "" then .error "System prompt file is empty"
      else .ok c.trim

/-- The claim's bad-file condition: missing, not a regular file, or empty. -/
def badPromptFile : FsEntry → Prop
  | .missing => True
  | .notAFile => True
  | .file c => c.trim = ""

/-- Exception classes escaping `get_or_create_agent`: the `ValueError`
raised for a bad system-prompt file (line 340), or any other exception
(for example the `APIError` re-raised by `_start_container`). -/
inductive GocError where
  | valueError (msg : String)
  | apiError (msg : String)
  deriving DecidableEq, Repr

/-- Embeds `_start_container` (agent_manager.py lines 397-484): remove any
stale container by name, run a new one (its outcome given by
`env.runResult`), persist the record as `starting`, poll readiness
(`env.waitReady`), then persist `running` or `error`.  An `APIError` from
the run call marks the record `error`, persists it and re-raises. -/
def startContainer (env : DockerEnv) (st : MState) (a : AgentInfo) :
    Except GocError AgentInfo × MState × List Ev :=
  let evs0 : List Ev := [.containerRemove a.container_name]
  match env.runResult a.container_name with
  | .error e =>
      let a2 := { a with status := "error" }
      let r2 := setKey st.reg a.agent_id a2
      (.error (.apiError e), { st with reg := r2 },
        evs0 ++ [.containerRun a.container_name, .registrySave r2])
  | .ok cid =>
      let a1 := { a with container_id := some cid, status := "starting" }
      let r1 := setKey st.reg a.agent_id a1
      let a2 := if env.waitReady a.port then { a1 with status := "running" }
                else { a1 with status := "error" }
      let r2 := setKey r1 a.agent_id a2
      (.ok a2, { st with reg := r2 },
        evs0 ++ [.containerRun a.container_name, .registrySave r1,
                 .registrySave r2])

/-- Embeds `_create_agent` (agent_manager.py lines 372-395): allocate a
port, build a fresh `starting` record, and start its container. -/
def createAgent (env : DockerEnv) (st : MState) (agentId : String)
    (dataDir : Option String) (now : Rat) :
    Except GocError AgentInfo × MState × List Ev :=
  let pr := getNextPort st
  let a : AgentInfo :=
    { agent_id := agentId, container_id := none,
      container_name := "agent-" ++ agentId, port := pr.1,
      status := "starting", created_at := now, last_activity := now,
      data_dir := dataDir }
  startContainer env pr.2 a

/-- Embeds `get_or_create_agent` (agent_manager.py lines 300-370) in source
order: look up the record; persist a provided `data_dir` override; resolve
the system prompt (a file error becomes a `ValueError` raised before any
container action); store the prompt unless the agent already has a session;
copy tools for new agents or when tools were given; then return the live
agent with refreshed `last_activity`, restart its stopped container, or
create it from scratch. -/
def getOrCreateAgent (env : DockerEnv) (st : MState) (agentId : String)
    (systemPrompt : Option String) (systemPromptFile : Option FsEntry)
    (toolsGiven : Bool) (dataDir : Option String) (now : Rat) :
    Except GocError AgentInfo × MState × List Ev :=
  let agent0 := lookupReg st.reg agentId
  let step1 : Option AgentInfo × MState × List Ev :=
    match agent0, dataDir with
    | some a, some d =>
        let a2 := { a with data_dir := some d }
        let r2 := setKey st.reg a.agent_id a2
        (some a2, { st with reg := r2 }, [.registrySave r2])
    | _, _ => (agent0, st, [])
  let agent1 := step1.1
  let st1 := step1.2.1
  let evs1 := step1.2.2
  let effectiveDataDir : Option String :=
    match dataDir with
    | some d => some d
    | none =>
        match agent1 with
        | some a => a.data_dir
        | none => none
  let resolved : Except String (Option String) :=
    match systemPromptFile with
    | some f =>
        match readSystemPromptFile f with
        | .ok c => .ok (some c)
        | .error e => .error ("Failed to read system prompt file: " ++ e)
    | none => .ok systemPrompt
  match resolved with
  | .error m => (.error (.valueError m), st1, evs1)
  | .ok rp =>
      let evs2 : List Ev :=
        match rp with
        | some p =>
            if agent1.isSome ∧ env.hasSession agentId then []
            else [.promptWrite agentId p]
        | none => []
      let evs3 : List Ev :=
        if agent1.isNone ∨ toolsGiven then [.toolsCopy agentId] else []
      match agent1 with
      | some a =>
          match a.container_id with
          | some cid =>
              if env.isRunning cid then
                let a2 := { a with last_activity := now }
                let r2 := setKey st1.reg a.agent_id a2
                (.ok a2, { st1 with reg := r2 },
                  evs1 ++ evs2 ++ evs3 ++ [.registrySave r2])
              else
                let res := startContainer env st1 a
                (res.1, res.2.1, evs1 ++ evs2 ++ evs3 ++ res.2.2)
          | none =>
              let res := createAgent env st1 agentId effectiveDataDir now
              (res.1, res.2.1, evs1 ++ evs2 ++ evs3 ++ res.2.2)
      | none =>
          let res := createAgent env st1 agentId effectiveDataDir now
          (res.1, res.2.1, evs1 ++ evs2 ++ evs3 ++ res.2.2)

/-- Embeds `send_message` (agent_manager.py lines 486-538): resolve or
create the agent (a `ValueError` — bad prompt file — or any other exception
becomes a synchronous `error` result); refuse agents not in `running`
status; refresh and persist `last_activity`; then spawn the detached chat
dispatch task and return the `dispatched` acknowledgment.  The returned
response is built without consulting any chat outcome: the model has no
oracle for the worker's reply at all, mirroring fire-and-forget. -/
def sendMessage (env : DockerEnv) (st : MState) (agentId message : String)
    (systemPrompt : Option String) (systemPromptFile : Option FsEntry)
    (toolsGiven : Bool) (dataDir : Option String) (now : Rat) :
    Resp × MState × List Ev :=
  match getOrCreateAgent env st agentId systemPrompt systemPromptFile
      toolsGiven dataDir now with
  | (.error (.valueError m), st1, evs) =>
      ([("status", .str "error"), ("error", .str m)], st1, evs)
  | (.error (.apiError m), st1, evs) =>
      ([("status", .str "error"),
        ("error", .str ("Failed to initialize agent: " ++ m))], st1, evs)
  | (.ok a, st1, evs) =>
      if a.status = "running" then
        let a2 := { a with last_activity := now }
        let r2 := setKey st1.reg a.agent_id a2
        ([("status", .str "dispatched"), ("agent_id", .str agentId),
          ("message",
           .str "Message sent. Use get_messages to check for response.")],
         { st1 with reg := r2 },
         evs ++ [.registrySave r2, .chatSpawn agentId a.port message])
      else
        ([("status", .str "error"),
          ("error", .str ("Agent not running: " ++ a.status))], st1, evs)

end Manager

namespace Manager

theorem lookupReg_setKey_self (r : Registry) (k : String) (a : AgentInfo) :
    lookupReg (setKey r k a) k = some a := by
  induction r with
  | nil => simp [setKey, lookupReg]
  | cons hd tl ih =>
      obtain ⟨k1, a1⟩ := hd
      by_cases h : k1 = k
      · simp [setKey, lookupReg, h]
      · simp [setKey, lookupReg, h, ih]

theorem lookupReg_setKey_other (r : Registry) (k k' : String) (a : AgentInfo)
    (hne : k' ≠ k) : lookupReg (setKey r k a) k' = lookupReg r k' := by
  induction r with
  | nil => simp [setKey, lookupReg, Ne.symm hne]
  | cons hd tl ih =>
      obtain ⟨k1, a1⟩ := hd
      by_cases h : k1 = k
      · subst h
        simp [setKey, lookupReg, Ne.symm hne]
      · by_cases h2 : k1 = k'
        · simp [setKey, lookupReg, h, h2, hne]
        · simp [setKey, lookupReg, h, h2, ih]

theorem parseAllFiles_eq_none_of_mem (files : List (Nat × Option Json))
    (f : Nat × Option Json) (hmem : f ∈ files)
    (hbad : f.2.bind extractMessage = none) :
    parseAllFiles files = none := by
  induction files with
  | nil => cases hmem
  | cons hd tl ih =>
      rcases List.mem_cons.mp hmem with h | h
      · unfold parseAllFiles
        rw [← h, hbad]
      · unfold parseAllFiles
        cases hhd : hd.2.bind extractMessage with
        | none => rfl
        | some m => rw [ih h]

theorem mem_insertByIdx (x y : Nat × Option Json)
    (l : List (Nat × Option Json)) (h : y ∈ l) : y ∈ insertByIdx x l := by
  induction l with
  | nil => cases h
  | cons hd tl ih =>
      unfold insertByIdx
      by_cases hle : x.1 ≤ hd.1
      · simp only [hle, if_true]
        exact List.mem_cons_of_mem x h
      · simp only [hle, if_false]
        rcases List.mem_cons.mp h with h1 | h1
        · exact h1 ▸ List.mem_cons_self hd _
        · exact List.mem_cons_of_mem hd (ih h1)

theorem mem_insertByIdx_self (x : Nat × Option Json)
    (l : List (Nat × Option Json)) : x ∈ insertByIdx x l := by
  induction l with
  | nil => simp [insertByIdx]
  | cons hd tl ih =>
      unfold insertByIdx
      by_cases hle : x.1 ≤ hd.1
      · simp [hle]
      · simp only [hle, if_false]
        exact List.mem_cons_of_mem hd ih

theorem mem_sortByIdx (files : List (Nat × Option Json))
    (f : Nat × Option Json) (hmem : f ∈ files) : f ∈ sortByIdx files := by
  induction files with
  | nil => cases hmem
  | cons hd tl ih =>
      unfold sortByIdx
      rcases List.mem_cons.mp hmem with h | h
      · exact h ▸ mem_insertByIdx_self hd (sortByIdx tl)
      · exact mem_insertByIdx hd f (sortByIdx tl) (ih h)

theorem countP_le_countP_of_imp (p q : Nat → Bool) (l : List Nat)
    (h : ∀ a, p a = true → q a = true) : l.countP p ≤ l.countP q := by
  induction l with
  | nil => simp
  | cons x xs ih =>
      simp only [List.countP_cons]
      by_cases hx : p x = true
      · simp [hx, h x hx]
        omega
      · by_cases hq : q x = true <;> simp [hx, hq] <;> omega

theorem countP_ge_succ_lt_of_mem (used : List Nat) (c : Nat) (hc : c ∈ used) :
    used.countP (fun p => decide (c + 1 ≤ p)) <
      used.countP (fun p => decide (c ≤ p)) := by
  induction used with
  | nil => cases hc
  | cons x xs ih =>
      rcases List.mem_cons.mp hc with h | h
      · subst h
        simp only [List.countP_cons]
        have h1 : xs.countP (fun p => decide (c + 1 ≤ p)) ≤
            xs.countP (fun p => decide (c ≤ p)) := by
          apply countP_le_countP_of_imp
          intro a ha
          simp only [decide_eq_true_eq] at ha ⊢
          omega
        simp only [decide_eq_true_eq]
        have h2 : ¬ (c + 1 ≤ c) := by omega
        simp [h2]
        omega
      · have h1 := ih h
        simp only [List.countP_cons]
        have h2 : (if decide (c + 1 ≤ x) = true then 1 else 0) ≤
            (if decide (c ≤ x) = true then 1 else 0) := by
          by_cases hx : c + 1 ≤ x
          · have hx2 : c ≤ x := by omega
            simp [hx, hx2]
          · simp [hx]
        omega

theorem nextFree_not_mem (fuel : Nat) (used : List Nat) (c : Nat)
    (h : used.countP (fun p => decide (c ≤ p)) < fuel) :
    nextFree fuel used c ∉ used := by
  induction fuel generalizing c with
  | zero => omega
  | succ fuel ih =>
      unfold nextFree
      by_cases hc : c ∈ used
      · simp only [hc, if_true]
        apply ih
        have := countP_ge_succ_lt_of_mem used c hc
        omega
      · simp [hc]

theorem lookupReg_mem (r : Registry) (k : String) (a : AgentInfo)
    (h : lookupReg r k = some a) : (k, a) ∈ r := by
  induction r with
  | nil => simp [lookupReg] at h
  | cons hd tl ih =>
      obtain ⟨k1, a1⟩ := hd
      by_cases hk : k1 = k
      · subst hk
        simp only [lookupReg, if_true] at h
        simp only [Option.some.injEq] at h
        subst h
        exact List.mem_cons_self _ _
      · simp only [lookupReg, hk, if_false] at h
        exact List.mem_cons_of_mem _ (ih h)

theorem setKey_map_fst (r : Registry) (k : String) (a a2 : AgentInfo)
    (h : lookupReg r k = some a) :
    (setKey r k a2).map Prod.fst = r.map Prod.fst := by
  induction r with
  | nil => simp [lookupReg] at h
  | cons hd tl ih =>
      obtain ⟨k1, a1⟩ := hd
      by_cases hk : k1 = k
      · subst hk
        simp [setKey]
      · simp only [lookupReg, hk, if_false] at h
        simp [setKey, hk, ih h]

theorem mem_setKey_cases (r : Registry) (k : String) (a2 : AgentInfo)
    (e : String × AgentInfo) (h : e ∈ setKey r k a2) :
    e = (k, a2) ∨ e ∈ r := by
  induction r with
  | nil =>
      simp [setKey] at h
      exact Or.inl h
  | cons hd tl ih =>
      obtain ⟨k1, a1⟩ := hd
      by_cases hk : k1 = k
      · subst hk
        simp only [setKey, if_true] at h
        rcases List.mem_cons.mp h with h1 | h1
        · exact Or.inl h1
        · exact Or.inr (List.mem_cons_of_mem _ h1)
      · simp only [setKey, hk, if_false] at h
        rcases List.mem_cons.mp h with h1 | h1
        · exact Or.inr (h1 ▸ List.mem_cons_self _ _)
        · rcases ih h1 with h2 | h2
          · exact Or.inl h2
          · exact Or.inr (List.mem_cons_of_mem _ h2)

theorem WFReg_setKey (r : Registry) (k : String) (a a2 : AgentInfo)
    (hwf : WFReg r) (h : lookupReg r k = some a) (hid : a2.agent_id = k) :
    WFReg (setKey r k a2) := by
  constructor
  · intro e he
    rcases mem_setKey_cases r k a2 e he with h1 | h1
    · rw [h1, hid]
    · exact hwf.1 e h1
  · rw [setKey_map_fst r k a a2 h]
    exact hwf.2

theorem stopAgent_reg_eq (env : DockerEnv) (r : Registry) (id : String)
    (agent : AgentInfo) (cid : String)
    (ha : lookupReg r id = some agent)
    (hid : agent.agent_id = id)
    (hcid : agent.container_id = some cid)
    (hout : env.stopResult cid = .ok ∨ env.stopResult cid = .notFound) :
    (stopAgent env r id).2.1 = setKey r id { agent with status := "stopped" } := by
  rcases hout with h | h <;> simp [stopAgent, ha, hcid, h, hid]

theorem stopAgent_lookup_other (env : DockerEnv) (r : Registry)
    (id k : String) (hwf : WFReg r) (hne : k ≠ id) :
    lookupReg (stopAgent env r id).2.1 k = lookupReg r k := by
  cases ha : lookupReg r id with
  | none => simp [stopAgent, ha]
  | some agent =>
      have hid : agent.agent_id = id :=
        (hwf.1 _ (lookupReg_mem r id agent ha)).symm
      cases hc : agent.container_id with
      | none => simp [stopAgent, ha, hc]
      | some cid =>
          cases hs : env.stopResult cid with
          | ok =>
              simp only [stopAgent, ha, hc, hs]
              rw [hid]
              exact lookupReg_setKey_other r id k _ hne
          | notFound =>
              simp only [stopAgent, ha, hc, hs]
              rw [hid]
              exact lookupReg_setKey_other r id k _ hne
          | failed m => simp [stopAgent, ha, hc, hs]

theorem stopAgent_WF (env : DockerEnv) (r : Registry) (id : String)
    (hwf : WFReg r) : WFReg (stopAgent env r id).2.1 := by
  cases ha : lookupReg r id with
  | none => simpa [stopAgent, ha] using hwf
  | some agent =>
      have hid : agent.agent_id = id :=
        (hwf.1 _ (lookupReg_mem r id agent ha)).symm
      cases hc : agent.container_id with
      | none => simpa [stopAgent, ha, hc] using hwf
      | some cid =>
          cases hs : env.stopResult cid with
          | ok =>
              simp only [stopAgent, ha, hc, hs]
              rw [hid]
              exact WFReg_setKey r id agent _ hwf ha rfl
          | notFound =>
              simp only [stopAgent, ha, hc, hs]
              rw [hid]
              exact WFReg_setKey r id agent _ hwf ha rfl
          | failed m => simpa [stopAgent, ha, hc, hs] using hwf

theorem sweep_WF (env : DockerEnv) (now timeout : Rat)
    (l : List (String × AgentInfo)) (r : Registry) (hwf : WFReg r) :
    WFReg (sweep env now timeout l r).1 := by
  induction l generalizing r with
  | nil => simpa [sweep] using hwf
  | cons e es ih =>
      by_cases hcond : e.2.status = "running" ∧
          (now - e.2.last_activity) / 60 > timeout
      · simp only [sweep, if_pos hcond]
        exact ih _ (stopAgent_WF env r e.2.agent_id hwf)
      · simp only [sweep, if_neg hcond]
        exact ih r hwf

theorem sweep_lookup_preserve (env : DockerEnv) (now timeout : Rat)
    (l : List (String × AgentInfo)) (r : Registry) (k : String)
    (hwf : WFReg r) (hl : ∀ e ∈ l, e.2.agent_id ≠ k) :
    lookupReg (sweep env now timeout l r).1 k = lookupReg r k := by
  induction l generalizing r with
  | nil => simp [sweep]
  | cons e es ih =>
      by_cases hcond : e.2.status = "running" ∧
          (now - e.2.last_activity) / 60 > timeout
      · simp only [sweep, if_pos hcond]
        rw [ih _ (stopAgent_WF env r e.2.agent_id hwf)
              (fun e' he' => hl e' (List.mem_cons_of_mem _ he'))]
        exact stopAgent_lookup_other env r e.2.agent_id k hwf
          (fun h => hl e (List.mem_cons_self _ _) h.symm)
      · simp only [sweep, if_neg hcond]
        exact ih r hwf (fun e' he' => hl e' (List.mem_cons_of_mem _ he'))

theorem sweep_append_fst (env : DockerEnv) (now timeout : Rat)
    (l1 l2 : List (String × AgentInfo)) (r : Registry) :
    (sweep env now timeout (l1 ++ l2) r).1 =
      (sweep env now timeout l2 (sweep env now timeout l1 r).1).1 := by
  induction l1 generalizing r with
  | nil => simp [sweep]
  | cons e es ih =>
      by_cases hcond : e.2.status = "running" ∧
          (now - e.2.last_activity) / 60 > timeout
      · simp only [List.cons_append, sweep, if_pos hcond]
        exact ih _
      · simp only [List.cons_append, sweep, if_neg hcond]
        exact ih r

theorem lookupReg_append_not_mem (s rest : Registry) (k : String)
    (h : ¬ (k ∈ s.map Prod.fst)) :
    lookupReg (s ++ rest) k = lookupReg rest k := by
  induction s with
  | nil => rfl
  | cons hd tl ih =>
      obtain ⟨k1, a1⟩ := hd
      have hk : k1 ≠ k := by
        intro hcontra
        exact h (by simp [hcontra])
      simp only [List.cons_append, lookupReg, hk, if_false]
      exact ih (fun hc => h (List.mem_cons_of_mem _ hc))

end Manager

/-- C7: the Port Allocator never returns a port currently held by any agent
record in the registry (whatever its status — in particular any `running` or
`starting` agent): `_get_next_port` recomputes the set of held ports and
skips every collision. -/
theorem get_next_port_fresh (st : Manager.MState) :
    (Manager.getNextPort st).1 ∉ st.reg.map (fun e => e.2.port) :=
  Manager.nextFree_not_mem ((st.reg.map (fun e => e.2.port)).length + 1)
    (st.reg.map (fun e => e.2.port)) st.portCounter
    (by
      have h := List.countP_le_length
        (fun p => decide (st.portCounter ≤ p))
        (l := st.reg.map (fun e => e.2.port))
      omega)

/-- Closed witness for `get_next_port_fresh`: with two registered agents
holding ports 9000 and 9001 and the counter at 9000, the allocated port
collides with neither. -/
theorem get_next_port_fresh_witness :
    (Manager.getNextPort
      { reg := [("a", { agent_id := "a", container_id := none,
                        container_name := "agent-a", port := 9000,
                        status := "running", created_at := 0,
                        last_activity := 0, data_dir := none }),
                ("b", { agent_id := "b", container_id := none,
                        container_name := "agent-b", port := 9001,
                        status := "starting", created_at := 0,
                        last_activity := 0, data_dir := none })],
        portCounter := 9000 }).1 ∉
      ([("a", { agent_id := "a", container_id := none,
                container_name := "agent-a", port := 9000,
                status := "running", created_at := 0,
                last_activity := 0, data_dir := none }),
        ("b", { agent_id := "b", container_id := none,
                container_name := "agent-b", port := 9001,
                status := "starting", created_at := 0,
                last_activity := 0, data_dir := none })] :
        Manager.Registry).map (fun e => e.2.port) :=
  get_next_port_fresh _

/-- C8: one `cleanup_idle_agents` sweep stops a `running` agent exactly when
its idle time `now − last_activity` strictly exceeds the configured
threshold (given that its container id is known and the container stop
succeeds or the container is already absent), and leaves every record that
is not `running`, or whose idle time does not exceed the threshold,
untouched.  `hwf` states the registry is a well-formed dict as the manager
writes it: keys are unique and each equals its record's `agent_id`. -/
theorem cleanup_idle_agents_exact (env : Manager.DockerEnv)
    (now timeout : Rat) (reg : Manager.Registry) (hwf : Manager.WFReg reg)
    (k : String) (a : Manager.AgentInfo) (hmem : (k, a) ∈ reg) :
    (∀ cid, a.container_id = some cid →
      (env.stopResult cid = .ok ∨ env.stopResult cid = .notFound) →
      a.status = "running" →
      ((now - a.last_activity) / 60 > timeout ↔
        Manager.lookupReg (Manager.cleanupIdleAgents env now timeout reg).1 k =
          some { a with status := "stopped" })) ∧
    (¬ (a.status = "running" ∧ (now - a.last_activity) / 60 > timeout) →
      Manager.lookupReg (Manager.cleanupIdleAgents env now timeout reg).1 k =
        some a) := by
  obtain ⟨s, t, hsplit⟩ := List.append_of_mem hmem
  subst hsplit
  have hka : k = a.agent_id := hwf.1 (k, a) hmem
  have hnod := hwf.2
  rw [List.map_append, List.map_cons] at hnod
  have hks : ¬ k ∈ s.map Prod.fst := by
    have hdisj := List.disjoint_of_nodup_append hnod
    intro hc
    exact hdisj hc (by simp)
  have hkt : ¬ k ∈ t.map Prod.fst :=
    (List.nodup_cons.mp (List.Nodup.of_append_right hnod)).1
  have hs_entries : ∀ e ∈ s, e.2.agent_id ≠ k := by
    intro e he hc
    have h1 : e.1 = e.2.agent_id := hwf.1 e (List.mem_append_left _ he)
    have h2 := List.mem_map_of_mem Prod.fst he
    rw [h1, hc] at h2
    exact hks h2
  have ht_entries : ∀ e ∈ t, e.2.agent_id ≠ k := by
    intro e he hc
    have h1 : e.1 = e.2.agent_id :=
      hwf.1 e (List.mem_append_right _ (List.mem_cons_of_mem _ he))
    have h2 := List.mem_map_of_mem Prod.fst he
    rw [h1, hc] at h2
    exact hkt h2
  have hregk : Manager.lookupReg (s ++ (k, a) :: t) k = some a := by
    rw [Manager.lookupReg_append_not_mem s _ k hks]
    simp [Manager.lookupReg]
  have hwf1 := Manager.sweep_WF env now timeout s (s ++ (k, a) :: t) hwf
  have hr1k : Manager.lookupReg
      (Manager.sweep env now timeout s (s ++ (k, a) :: t)).1 k = some a := by
    rw [Manager.sweep_lookup_preserve env now timeout s _ k hwf hs_entries]
    exact hregk
  have happ := Manager.sweep_append_fst env now timeout s ((k, a) :: t)
    (s ++ (k, a) :: t)
  by_cases hcond : a.status = "running" ∧ (now - a.last_activity) / 60 > timeout
  · constructor
    · intro cid hcid hout hrun
      have hstop := Manager.stopAgent_reg_eq env
        (Manager.sweep env now timeout s (s ++ (k, a) :: t)).1
        a.agent_id a cid (by rw [← hka]; exact hr1k) rfl hcid hout
      have hwf2 := Manager.stopAgent_WF env
        (Manager.sweep env now timeout s (s ++ (k, a) :: t)).1 a.agent_id hwf1
      have hfin : Manager.lookupReg
          (Manager.cleanupIdleAgents env now timeout (s ++ (k, a) :: t)).1 k =
            some { a with status := "stopped" } := by
        show Manager.lookupReg
          (Manager.sweep env now timeout (s ++ (k, a) :: t)
            (s ++ (k, a) :: t)).1 k = _
        rw [happ]
        simp only [Manager.sweep, if_pos hcond]
        rw [Manager.sweep_lookup_preserve env now timeout t _ k hwf2 ht_entries]
        rw [hstop, ← hka]
        exact Manager.lookupReg_setKey_self _ k _
      exact ⟨fun _ => hfin, fun _ => hcond.2⟩
    · intro hneg
      exact absurd hcond hneg
  · have hfin : Manager.lookupReg
        (Manager.cleanupIdleAgents env now timeout (s ++ (k, a) :: t)).1 k =
          some a := by
      show Manager.lookupReg
        (Manager.sweep env now timeout (s ++ (k, a) :: t)
          (s ++ (k, a) :: t)).1 k = some a
      rw [happ]
      simp only [Manager.sweep, if_neg hcond]
      rw [Manager.sweep_lookup_preserve env now timeout t _ k hwf1 ht_entries]
      exact hr1k
    constructor
    · intro cid hcid hout hrun
      constructor
      · intro hidle
        exact absurd ⟨hrun, hidle⟩ hcond
      · intro hlook
        rw [hfin] at hlook
        have h3 := Option.some.inj hlook
        have h4 : a.status = "stopped" := by rw [h3]
        rw [hrun] at h4
        exact absurd h4 (by decide)
    · intro _
      exact hfin

/-- Closed witness for `cleanup_idle_agents_exact`: with a 30-minute
threshold, agent `a` (running, idle for 120 minutes) is stopped by one sweep
while agent `b` (running, idle for 200 seconds) is untouched. -/
theorem cleanup_idle_agents_exact_witness :
    Manager.lookupReg
      (Manager.cleanupIdleAgents
        ⟨fun _ => false, fun _ => Except.error "", fun _ => true,
         fun _ => Manager.StopOutcome.ok, fun _ => false⟩
        7200 30
        [("a", { agent_id := "a", container_id := some "ca",
                 container_name := "agent-a", port := 9000,
                 status := "running", created_at := 0, last_activity := 0,
                 data_dir := none }),
         ("b", { agent_id := "b", container_id := some "cb",
                 container_name := "agent-b", port := 9001,
                 status := "running", created_at := 0, last_activity := 7000,
                 data_dir := none })]).1 "a" =
      some { agent_id := "a", container_id := some "ca",
             container_name := "agent-a", port := 9000, status := "stopped",
             created_at := 0, last_activity := 0, data_dir := none } ∧
    Manager.lookupReg
      (Manager.cleanupIdleAgents
        ⟨fun _ => false, fun _ => Except.error "", fun _ => true,
         fun _ => Manager.StopOutcome.ok, fun _ => false⟩
        7200 30
        [("a", { agent_id := "a", container_id := some "ca",
                 container_name := "agent-a", port := 9000,
                 status := "running", created_at := 0, last_activity := 0,
                 data_dir := none }),
         ("b", { agent_id := "b", container_id := some "cb",
                 container_name := "agent-b", port := 9001,
                 status := "running", created_at := 0, last_activity := 7000,
                 data_dir := none })]).1 "b" =
      some { agent_id := "b", container_id := some "cb",
             container_name := "agent-b", port := 9001, status := "running",
             created_at := 0, last_activity := 7000, data_dir := none } := by
  have hwf : Manager.WFReg
      [("a", { agent_id := "a", container_id := some "ca",
               container_name := "agent-a", port := 9000,
               status := "running", created_at := 0, last_activity := 0,
               data_dir := none }),
       ("b", { agent_id := "b", container_id := some "cb",
               container_name := "agent-b", port := 9001,
               status := "running", created_at := 0, last_activity := 7000,
               data_dir := none })] := by
    constructor
    · intro e he
      rcases List.mem_cons.mp he with h | h
      · rw [h]
      · rcases List.mem_cons.mp h with h2 | h2
        · rw [h2]
        · cases h2
    · simp
  have ha := cleanup_idle_agents_exact
    ⟨fun _ => false, fun _ => Except.error "", fun _ => true,
     fun _ => Manager.StopOutcome.ok, fun _ => false⟩
    7200 30 _ hwf "a"
    { agent_id := "a", container_id := some "ca",
      container_name := "agent-a", port := 9000, status := "running",
      created_at := 0, last_activity := 0, data_dir := none }
    (by simp)
  have hb := cleanup_idle_agents_exact
    ⟨fun _ => false, fun _ => Except.error "", fun _ => true,
     fun _ => Manager.StopOutcome.ok, fun _ => false⟩
    7200 30 _ hwf "b"
    { agent_id := "b", container_id := some "cb",
      container_name := "agent-b", port := 9001, status := "running",
      created_at := 0, last_activity := 7000, data_dir := none }
    (by simp)
  refine ⟨?_, ?_⟩
  · exact (ha.1 "ca" rfl (Or.inl rfl) rfl).mp (by norm_num)
  · exact hb.2 (by
      intro h
      have h2 := h.2
      norm_num at h2)

/-- C9: for every existing agent with a container id, `stop_agent` marks the
record `stopped` and persists it both when the container stop succeeds and
when the container is already absent (`NotFound`), and returns `True` in
both cases — stop is idempotent. -/
theorem stop_agent_idempotent (env : Manager.DockerEnv)
    (reg : Manager.Registry) (agentId : String) (agent : Manager.AgentInfo)
    (cid : String)
    (hagent : Manager.lookupReg reg agentId = some agent)
    (hcid : agent.container_id = some cid)
    (houtcome : env.stopResult cid = .ok ∨ env.stopResult cid = .notFound) :
    (Manager.stopAgent env reg agentId).1 = true ∧
    Manager.lookupReg (Manager.stopAgent env reg agentId).2.1 agent.agent_id =
      some { agent with status := "stopped" } ∧
    Manager.Ev.registrySave
        (Manager.setKey reg agent.agent_id { agent with status := "stopped" })
      ∈ (Manager.stopAgent env reg agentId).2.2 := by
  rcases houtcome with h | h <;>
    simp [Manager.stopAgent, hagent, hcid, h, Manager.lookupReg_setKey_self]

/-- Closed witness for `stop_agent_idempotent` in the `NotFound` case: the
container is already gone and stopping still succeeds. -/
theorem stop_agent_idempotent_witness :
    (Manager.stopAgent
      ⟨fun _ => false, fun _ => Except.error "", fun _ => true,
       fun _ => Manager.StopOutcome.notFound, fun _ => false⟩
      [("a", { agent_id := "a", container_id := some "c9",
               container_name := "agent-a", port := 9000, status := "running",
               created_at := 0, last_activity := 0, data_dir := none })]
      "a").1 = true ∧
    Manager.lookupReg
      (Manager.stopAgent
        ⟨fun _ => false, fun _ => Except.error "", fun _ => true,
         fun _ => Manager.StopOutcome.notFound, fun _ => false⟩
        [("a", { agent_id := "a", container_id := some "c9",
                 container_name := "agent-a", port := 9000, status := "running",
                 created_at := 0, last_activity := 0, data_dir := none })]
        "a").2.1 "a" =
      some { agent_id := "a", container_id := some "c9",
             container_name := "agent-a", port := 9000, status := "stopped",
             created_at := 0, last_activity := 0, data_dir := none } ∧
    Manager.Ev.registrySave
        (Manager.setKey
          [("a", { agent_id := "a", container_id := some "c9",
                   container_name := "agent-a", port := 9000,
                   status := "running", created_at := 0, last_activity := 0,
                   data_dir := none })]
          "a"
          { agent_id := "a", container_id := some "c9",
            container_name := "agent-a", port := 9000, status := "stopped",
            created_at := 0, last_activity := 0, data_dir := none }) ∈
      (Manager.stopAgent
        ⟨fun _ => false, fun _ => Except.error "", fun _ => true,
         fun _ => Manager.StopOutcome.notFound, fun _ => false⟩
        [("a", { agent_id := "a", container_id := some "c9",
                 container_name := "agent-a", port := 9000, status := "running",
                 created_at := 0, last_activity := 0, data_dir := none })]
        "a").2.2 :=
  stop_agent_idempotent
    ⟨fun _ => false, fun _ => Except.error "", fun _ => true,
     fun _ => Manager.StopOutcome.notFound, fun _ => false⟩
    [("a", { agent_id := "a", container_id := some "c9",
             container_name := "agent-a", port := 9000, status := "running",
             created_at := 0, last_activity := 0, data_dir := none })]
    "a"
    { agent_id := "a", container_id := some "c9",
      container_name := "agent-a", port := 9000, status := "running",
      created_at := 0, last_activity := 0, data_dir := none }
    "c9" rfl rfl (Or.inr rfl)

/-- C10: `list_agents` never writes the registry file: the returned file
state equals the input and the event trace is empty (the source contains no
`tracker.save`), even though each record whose container id is known gets
its response status recomputed from the actual container state — the
recomputed status goes only into the response, never to disk. -/
theorem list_agents_no_save (env : Manager.DockerEnv)
    (reg : Manager.Registry) :
    (Manager.listAgents env reg).1 = reg ∧
    (Manager.listAgents env reg).2.1 = [] ∧
    ∀ e ∈ reg, ∀ cid, e.2.container_id = some cid →
      ({ e.2 with
          status := if env.isRunning cid then "running" else "stopped" },
        false) ∈ (Manager.listAgents env reg).2.2 := by
  refine ⟨rfl, rfl, ?_⟩
  intro e he cid hcid
  have hmem := List.mem_map_of_mem
    (f := fun e : String × Manager.AgentInfo =>
      let a := e.2
      let a2 :=
        match a.container_id with
        | some cid =>
            if env.isRunning cid then { a with status := "running" }
            else { a with status := "stopped" }
        | none => a
      (a2, false)) he
  by_cases hr : env.isRunning cid <;>
    simpa [Manager.listAgents, hcid, hr] using hmem

/-- Closed witness for `list_agents_no_save`: a record stored as `running`
whose container has exited is reported as `stopped` in the response while
the file still holds `running`. -/
theorem list_agents_no_save_witness :
    (Manager.listAgents
      ⟨fun _ => false, fun _ => Except.error "", fun _ => true,
       fun _ => Manager.StopOutcome.ok, fun _ => false⟩
      [("a", { agent_id := "a", container_id := some "c10",
               container_name := "agent-a", port := 9000, status := "running",
               created_at := 0, last_activity := 0, data_dir := none })]).1 =
      [("a", { agent_id := "a", container_id := some "c10",
               container_name := "agent-a", port := 9000, status := "running",
               created_at := 0, last_activity := 0, data_dir := none })] ∧
    ({ agent_id := "a", container_id := some "c10",
       container_name := "agent-a", port := 9000, status := "stopped",
       created_at := 0, last_activity := 0,
       data_dir := none : Manager.AgentInfo }, false) ∈
      (Manager.listAgents
        ⟨fun _ => false, fun _ => Except.error "", fun _ => true,
         fun _ => Manager.StopOutcome.ok, fun _ => false⟩
        [("a", { agent_id := "a", container_id := some "c10",
                 container_name := "agent-a", port := 9000, status := "running",
                 created_at := 0, last_activity := 0,
                 data_dir := none })]).2.2 := by
  have h := list_agents_no_save
    ⟨fun _ => false, fun _ => Except.error "", fun _ => true,
     fun _ => Manager.StopOutcome.ok, fun _ => false⟩
    [("a", { agent_id := "a", container_id := some "c10",
             container_name := "agent-a", port := 9000, status := "running",
             created_at := 0, last_activity := 0, data_dir := none })]
  refine ⟨h.1, ?_⟩
  have h2 := h.2.2
    ("a", { agent_id := "a", container_id := some "c10",
            container_name := "agent-a", port := 9000, status := "running",
            created_at := 0, last_activity := 0, data_dir := none })
    (by simp) "c10" rfl
  simpa using h2

/-- C2: the claim says `get_messages` with `auto_restart=false` on an agent
whose container is not running returns the persisted messages tagged
`source=disk` together with an `auto_restart` hint.  The embedded
`get_messages` (which has no `auto_restart` parameter at all) returns, for
any agent whose container is not running, a response whose keys are exactly
`status, agent_id, container_id, processing, messages`: there is no `source`
key and no `restart_hint` key.  The registry — hence the stored `status` —
is returned unchanged, which is the one part of the claim the code does
satisfy.  (The repository's own
`tests/test_get_messages_container_recovery.py` asserts
`result["source"] == "disk"` and passes `auto_restart=`, so the code
contradicts its own tests.) -/
theorem get_messages_stopped_response_untagged (env : Manager.DockerEnv)
    (reg : Manager.Registry) (agentId : String) (agent : Manager.AgentInfo)
    (hist : Except String (List Manager.Json))
    (files : List (Nat × Option Manager.Json)) (count : Int)
    (hagent : Manager.lookupReg reg agentId = some agent)
    (hstopped : ∀ cid, agent.container_id = some cid →
      env.isRunning cid = false) :
    (Manager.getMessages env reg agentId hist (some files) count).1 = reg ∧
    ((Manager.getMessages env reg agentId hist (some files) count).2).map
        Prod.fst =
      ["status", "agent_id", "container_id", "processing", "messages"] ∧
    Manager.respGet
      (Manager.getMessages env reg agentId hist (some files) count).2
      "source" = none ∧
    Manager.respGet
      (Manager.getMessages env reg agentId hist (some files) count).2
      "restart_hint" = none := by
  cases hc : agent.container_id with
  | none =>
      cases hr : Manager.readDiskMessages files with
      | none => simp [Manager.getMessages, hagent, hc, hr, Manager.respGet]
      | some msgs => simp [Manager.getMessages, hagent, hc, hr, Manager.respGet]
  | some cid =>
      have hrun : env.isRunning cid = false := hstopped cid hc
      cases hr : Manager.readDiskMessages files with
      | none =>
          simp [Manager.getMessages, hagent, hc, hrun, hr, Manager.respGet]
      | some msgs =>
          simp [Manager.getMessages, hagent, hc, hrun, hr, Manager.respGet]

/-- Closed witness for `get_messages_stopped_response_untagged`: a stopped
agent with two well-formed message files on disk still gets an untagged
response. -/
theorem get_messages_stopped_response_untagged_witness :
    (Manager.getMessages
      ⟨fun _ => false, fun _ => Except.error "", fun _ => true,
       fun _ => Manager.StopOutcome.ok, fun _ => false⟩
      [("a", { agent_id := "a", container_id := some "c1",
               container_name := "agent-a", port := 9000, status := "stopped",
               created_at := 0, last_activity := 0, data_dir := none })]
      "a" (Except.error "connection refused")
      (some [(0, some (Manager.Json.jobj
                [("message", Manager.Json.jstr "hello"),
                 ("message_id", Manager.Json.jnum 0)])),
             (1, some (Manager.Json.jobj
                [("message", Manager.Json.jstr "hi"),
                 ("message_id", Manager.Json.jnum 1)]))])
      1).1 =
      [("a", { agent_id := "a", container_id := some "c1",
               container_name := "agent-a", port := 9000, status := "stopped",
               created_at := 0, last_activity := 0, data_dir := none })] ∧
    ((Manager.getMessages
      ⟨fun _ => false, fun _ => Except.error "", fun _ => true,
       fun _ => Manager.StopOutcome.ok, fun _ => false⟩
      [("a", { agent_id := "a", container_id := some "c1",
               container_name := "agent-a", port := 9000, status := "stopped",
               created_at := 0, last_activity := 0, data_dir := none })]
      "a" (Except.error "connection refused")
      (some [(0, some (Manager.Json.jobj
                [("message", Manager.Json.jstr "hello"),
                 ("message_id", Manager.Json.jnum 0)])),
             (1, some (Manager.Json.jobj
                [("message", Manager.Json.jstr "hi"),
                 ("message_id", Manager.Json.jnum 1)]))])
      1).2).map Prod.fst =
      ["status", "agent_id", "container_id", "processing", "messages"] ∧
    Manager.respGet
      (Manager.getMessages
        ⟨fun _ => false, fun _ => Except.error "", fun _ => true,
         fun _ => Manager.StopOutcome.ok, fun _ => false⟩
        [("a", { agent_id := "a", container_id := some "c1",
                 container_name := "agent-a", port := 9000, status := "stopped",
                 created_at := 0, last_activity := 0, data_dir := none })]
        "a" (Except.error "connection refused")
        (some [(0, some (Manager.Json.jobj
                  [("message", Manager.Json.jstr "hello"),
                   ("message_id", Manager.Json.jnum 0)])),
               (1, some (Manager.Json.jobj
                  [("message", Manager.Json.jstr "hi"),
                   ("message_id", Manager.Json.jnum 1)]))])
        1).2 "source" = none ∧
    Manager.respGet
      (Manager.getMessages
        ⟨fun _ => false, fun _ => Except.error "", fun _ => true,
         fun _ => Manager.StopOutcome.ok, fun _ => false⟩
        [("a", { agent_id := "a", container_id := some "c1",
                 container_name := "agent-a", port := 9000, status := "stopped",
                 created_at := 0, last_activity := 0, data_dir := none })]
        "a" (Except.error "connection refused")
        (some [(0, some (Manager.Json.jobj
                  [("message", Manager.Json.jstr "hello"),
                   ("message_id", Manager.Json.jnum 0)])),
               (1, some (Manager.Json.jobj
                  [("message", Manager.Json.jstr "hi"),
                   ("message_id", Manager.Json.jnum 1)]))])
        1).2 "restart_hint" = none :=
  get_messages_stopped_response_untagged _ _ _ _ _ _ _ rfl
    (fun cid h => by cases h; rfl)

/-- C3 counterexample: the claim says a corrupt single message file does not
make the rest of the history unavailable — the remaining parseable messages
are still returned.  At this concrete input (three message files, of which
the middle one fails to parse) the embedded `get_messages` returns an empty
message list, not the two parseable messages `"m0"` and `"m2"`: the `try`
in agent_manager.py lines 585-602 wraps the whole read loop, so the first
parse error abandons every message. -/
theorem get_messages_corrupt_file_counterexample :
    Manager.respGet
      (Manager.getMessages
        ⟨fun _ => false, fun _ => Except.error "", fun _ => true,
         fun _ => Manager.StopOutcome.ok, fun _ => false⟩
        [("a", { agent_id := "a", container_id := none,
                 container_name := "agent-a", port := 9000, status := "stopped",
                 created_at := 0, last_activity := 0, data_dir := none })]
        "a" (Except.error "no container")
        (some [(0, some (Manager.Json.jobj
                  [("message", Manager.Json.jstr "m0"),
                   ("message_id", Manager.Json.jnum 0)])),
               (1, none),
               (2, some (Manager.Json.jobj
                  [("message", Manager.Json.jstr "m2"),
                   ("message_id", Manager.Json.jnum 2)]))])
        10).2 "messages" = some (Manager.RVal.msgs []) ∧
    Manager.respGet
      (Manager.getMessages
        ⟨fun _ => false, fun _ => Except.error "", fun _ => true,
         fun _ => Manager.StopOutcome.ok, fun _ => false⟩
        [("a", { agent_id := "a", container_id := none,
                 container_name := "agent-a", port := 9000, status := "stopped",
                 created_at := 0, last_activity := 0, data_dir := none })]
        "a" (Except.error "no container")
        (some [(0, some (Manager.Json.jobj
                  [("message", Manager.Json.jstr "m0"),
                   ("message_id", Manager.Json.jnum 0)])),
               (1, none),
               (2, some (Manager.Json.jobj
                  [("message", Manager.Json.jstr "m2"),
                   ("message_id", Manager.Json.jnum 2)]))])
        10).2 "messages" ≠
      some (Manager.RVal.msgs [Manager.Json.jstr "m0", Manager.Json.jstr "m2"]) := by
  constructor
  · rfl
  · intro hcontra
    have h1 : some (Manager.RVal.msgs ([] : List Manager.Json)) =
        some (Manager.RVal.msgs
          [Manager.Json.jstr "m0", Manager.Json.jstr "m2"]) := hcontra
    simp at h1

/-- C3 amended: when parsing one of the persisted message files fails, the
error is not propagated — the call still returns a success-status response
and the registry is untouched — but the response's message list is empty:
the remaining parseable messages are not returned, because the `try`
encloses the whole loop. -/
theorem get_messages_corrupt_file_amended (env : Manager.DockerEnv)
    (reg : Manager.Registry) (agentId : String) (agent : Manager.AgentInfo)
    (hist : Except String (List Manager.Json))
    (files : List (Nat × Option Manager.Json)) (count : Int)
    (f : Nat × Option Manager.Json)
    (hagent : Manager.lookupReg reg agentId = some agent)
    (hstopped : ∀ cid, agent.container_id = some cid →
      env.isRunning cid = false)
    (hf : f ∈ files) (hbad : f.2.bind Manager.extractMessage = none) :
    (Manager.getMessages env reg agentId hist (some files) count).1 = reg ∧
    Manager.respGet
      (Manager.getMessages env reg agentId hist (some files) count).2
      "status" = some (Manager.RVal.str "success") ∧
    Manager.respGet
      (Manager.getMessages env reg agentId hist (some files) count).2
      "messages" = some (Manager.RVal.msgs []) := by
  have hnone : Manager.readDiskMessages files = none :=
    Manager.parseAllFiles_eq_none_of_mem (Manager.sortByIdx files) f
      (Manager.mem_sortByIdx files f hf) hbad
  cases hc : agent.container_id with
  | none => simp [Manager.getMessages, hagent, hc, hnone, Manager.respGet]
  | some cid =>
      have hrun : env.isRunning cid = false := hstopped cid hc
      simp [Manager.getMessages, hagent, hc, hrun, hnone, Manager.respGet]

/-- Closed witness for `get_messages_corrupt_file_amended` at a concrete
registry and a concrete directory with one corrupt file. -/
theorem get_messages_corrupt_file_amended_witness :
    (Manager.getMessages
      ⟨fun _ => false, fun _ => Except.error "", fun _ => true,
       fun _ => Manager.StopOutcome.ok, fun _ => false⟩
      [("b", { agent_id := "b", container_id := none,
               container_name := "agent-b", port := 9001, status := "stopped",
               created_at := 0, last_activity := 0, data_dir := none })]
      "b" (Except.error "down")
      (some [(0, some (Manager.Json.jstr "not a dict")), (1, none)]) 5).1 =
      [("b", { agent_id := "b", container_id := none,
               container_name := "agent-b", port := 9001, status := "stopped",
               created_at := 0, last_activity := 0, data_dir := none })] ∧
    Manager.respGet
      (Manager.getMessages
        ⟨fun _ => false, fun _ => Except.error "", fun _ => true,
         fun _ => Manager.StopOutcome.ok, fun _ => false⟩
        [("b", { agent_id := "b", container_id := none,
                 container_name := "agent-b", port := 9001, status := "stopped",
                 created_at := 0, last_activity := 0, data_dir := none })]
        "b" (Except.error "down")
        (some [(0, some (Manager.Json.jstr "not a dict")), (1, none)]) 5).2
      "status" = some (Manager.RVal.str "success") ∧
    Manager.respGet
      (Manager.getMessages
        ⟨fun _ => false, fun _ => Except.error "", fun _ => true,
         fun _ => Manager.StopOutcome.ok, fun _ => false⟩
        [("b", { agent_id := "b", container_id := none,
                 container_name := "agent-b", port := 9001, status := "stopped",
                 created_at := 0, last_activity := 0, data_dir := none })]
        "b" (Except.error "down")
        (some [(0, some (Manager.Json.jstr "not a dict")), (1, none)]) 5).2
      "messages" = some (Manager.RVal.msgs []) :=
  get_messages_corrupt_file_amended _ _ _ _ _ _ _ (1, none) rfl
    (fun cid h => by cases h) (by simp) rfl

/-- C4: the claim says every `GET /health` response contains a `status`
field, a boolean `processing` field and an integer `queue_depth` field.  The
embedded handler returns exactly the fields `status` and `agent_id`:
`processing` and `queue_depth` are absent from the response for every agent
identity.  (The repository's own `test_concurrent_requests.py` reads
`health["processing"]` and `health["queue_depth"]`, which this response does
not provide.) -/
theorem health_missing_queue_fields (agentId : String) :
    (Worker.healthResponse agentId).map Prod.fst = ["status", "agent_id"] ∧
    ¬ ("processing" ∈ (Worker.healthResponse agentId).map Prod.fst) ∧
    ¬ ("queue_depth" ∈ (Worker.healthResponse agentId).map Prod.fst) := by
  refine ⟨rfl, ?_, ?_⟩ <;> simp [Worker.healthResponse]

/-- Closed witness for `health_missing_queue_fields` at a concrete agent id. -/
theorem health_missing_queue_fields_witness :
    (Worker.healthResponse "a1").map Prod.fst = ["status", "agent_id"] ∧
    ¬ ("processing" ∈ (Worker.healthResponse "a1").map Prod.fst) ∧
    ¬ ("queue_depth" ∈ (Worker.healthResponse "a1").map Prod.fst) :=
  health_missing_queue_fields "a1"

/-- C1: the claim says concurrent `POST /chat` submissions to one worker are
processed in strict arrival order with no two conversation turns
interleaving.  In the embedded semantics of the worker's `chat` handler
(which has no request queue: every request is submitted directly to the
shared thread pool), the state in which both of two requests are executing
their turns simultaneously is reachable from the initial state — two turns
can interleave, refuting the claim on the code. -/
theorem chat_turns_can_interleave :
    Worker.ChatReach [.idle, .idle] [.running, .running] := by
  have h1 : Worker.ChatStep [.idle, .idle] [.arrived, .idle] :=
    Worker.ChatStep.arriveStep [.idle, .idle] 0 rfl
  have h2 : Worker.ChatStep [.arrived, .idle] [.arrived, .arrived] :=
    Worker.ChatStep.arriveStep [.arrived, .idle] 1 rfl
  have h3 : Worker.ChatStep [.arrived, .arrived] [.running, .arrived] :=
    Worker.ChatStep.startStep [.arrived, .arrived] 0 rfl
  have h4 : Worker.ChatStep [.running, .arrived] [.running, .running] :=
    Worker.ChatStep.startStep [.running, .arrived] 1 rfl
  exact Relation.ReflTransGen.tail
    (Relation.ReflTransGen.tail
      (Relation.ReflTransGen.tail (Relation.ReflTransGen.single h1) h2) h3) h4

/-- C5: a `send_message` call whose `system_prompt_file` names a missing
path, a non-regular file, or an empty file returns a result with status
`error` synchronously, and its event trace contains no container action at
all — the rejection happens before any container is created or started, and
the failure is reported rather than silently ignored. -/
theorem send_message_bad_prompt_rejected (env : Manager.DockerEnv)
    (st : Manager.MState) (agentId message : String)
    (sp : Option String) (f : Manager.FsEntry) (toolsGiven : Bool)
    (dataDir : Option String) (now : Rat)
    (hbad : Manager.badPromptFile f) :
    Manager.respGet
      (Manager.sendMessage env st agentId message sp (some f) toolsGiven
        dataDir now).1 "status" = some (Manager.RVal.str "error") ∧
    ∀ e ∈ (Manager.sendMessage env st agentId message sp (some f) toolsGiven
        dataDir now).2.2, Manager.Ev.isContainerAction e = false := by
  have hread : ∃ m, Manager.readSystemPromptFile f = .error m := by
    cases f with
    | missing => exact ⟨_, rfl⟩
    | notAFile => exact ⟨_, rfl⟩
    | file c =>
        have hbad2 : c.trim = "" := hbad
        exact ⟨"System prompt file is empty", by
          simp [Manager.readSystemPromptFile, hbad2]⟩
  obtain ⟨m, hm⟩ := hread
  cases ha : Manager.lookupReg st.reg agentId with
  | none =>
      simp [Manager.sendMessage, Manager.getOrCreateAgent, ha, hm,
        Manager.respGet, Manager.Ev.isContainerAction]
  | some a =>
      cases dataDir with
      | none =>
          simp [Manager.sendMessage, Manager.getOrCreateAgent, ha, hm,
            Manager.respGet, Manager.Ev.isContainerAction]
      | some d =>
          simp [Manager.sendMessage, Manager.getOrCreateAgent, ha, hm,
            Manager.respGet, Manager.Ev.isContainerAction]

/-- Closed witness for `send_message_bad_prompt_rejected`: a missing prompt
file on an empty registry. -/
theorem send_message_bad_prompt_rejected_witness :
    Manager.respGet
      (Manager.sendMessage
        ⟨fun _ => true, fun _ => Except.error "", fun _ => true,
         fun _ => Manager.StopOutcome.ok, fun _ => false⟩
        { reg := [], portCounter := 9000 } "a" "hello" none
        (some Manager.FsEntry.missing) false none 0).1 "status" =
      some (Manager.RVal.str "error") ∧
    ∀ e ∈ (Manager.sendMessage
        ⟨fun _ => true, fun _ => Except.error "", fun _ => true,
         fun _ => Manager.StopOutcome.ok, fun _ => false⟩
        { reg := [], portCounter := 9000 } "a" "hello" none
        (some Manager.FsEntry.missing) false none 0).2.2,
      Manager.Ev.isContainerAction e = false :=
  send_message_bad_prompt_rejected
    ⟨fun _ => true, fun _ => Except.error "", fun _ => true,
     fun _ => Manager.StopOutcome.ok, fun _ => false⟩
    { reg := [], portCounter := 9000 } "a" "hello" none
    Manager.FsEntry.missing false none 0 trivial

/-- C6: whenever `get_or_create_agent` resolves an agent whose status is
`running`, `send_message` returns the `dispatched` acknowledgment, and its
trace is the resolution trace followed by exactly two events in this order:
persisting the record with `last_activity` refreshed to `now`, then
spawning the detached chat request.  So the activity stamp is persisted
before the HTTP chat call is issued, and the acknowledgment (which is a
fixed dictionary mentioning no chat outcome — the model has no oracle for
the worker's reply) is returned without waiting on the chat call. -/
theorem send_message_running_dispatch (env : Manager.DockerEnv)
    (st : Manager.MState) (agentId message : String) (sp : Option String)
    (spf : Option Manager.FsEntry) (toolsGiven : Bool)
    (dataDir : Option String) (now : Rat) (a : Manager.AgentInfo)
    (st1 : Manager.MState) (evs : List Manager.Ev)
    (hgoc : Manager.getOrCreateAgent env st agentId sp spf toolsGiven
      dataDir now = (.ok a, st1, evs))
    (hrun : a.status = "running") :
    Manager.sendMessage env st agentId message sp spf toolsGiven dataDir
        now =
      ([("status", Manager.RVal.str "dispatched"),
        ("agent_id", Manager.RVal.str agentId),
        ("message", Manager.RVal.str
          "Message sent. Use get_messages to check for response.")],
       { st1 with reg := Manager.setKey st1.reg a.agent_id { a with last_activity := now } },
       evs ++ [Manager.Ev.registrySave
                 (Manager.setKey st1.reg a.agent_id
                   { a with last_activity := now }),
               Manager.Ev.chatSpawn agentId a.port message]) := by
  unfold Manager.sendMessage
  rw [hgoc]
  simp [hrun]

/-- Closed witness for `send_message_running_dispatch`: an existing agent
with a running container gets its `last_activity` persisted and the chat
spawned after the save, with the `dispatched` acknowledgment returned. -/
theorem send_message_running_dispatch_witness :
    Manager.sendMessage
      ⟨fun _ => true, fun _ => Except.error "", fun _ => true,
       fun _ => Manager.StopOutcome.ok, fun _ => false⟩
      { reg := [("a", { agent_id := "a", container_id := some "c6",
                        container_name := "agent-a", port := 9005,
                        status := "running", created_at := 0,
                        last_activity := 0, data_dir := none })],
        portCounter := 9000 }
      "a" "ping" none none false none 100 =
      ([("status", Manager.RVal.str "dispatched"),
        ("agent_id", Manager.RVal.str "a"),
        ("message", Manager.RVal.str
          "Message sent. Use get_messages to check for response.")],
       { reg := [("a", { agent_id := "a", container_id := some "c6",
                         container_name := "agent-a", port := 9005,
                         status := "running", created_at := 0,
                         last_activity := 100, data_dir := none })],
         portCounter := 9000 },
       [Manager.Ev.registrySave
          [("a", { agent_id := "a", container_id := some "c6",
                   container_name := "agent-a", port := 9005,
                   status := "running", created_at := 0,
                   last_activity := 100, data_dir := none })],
        Manager.Ev.registrySave
          [("a", { agent_id := "a", container_id := some "c6",
                   container_name := "agent-a", port := 9005,
                   status := "running", created_at := 0,
                   last_activity := 100, data_dir := none })],
        Manager.Ev.chatSpawn "a" 9005 "ping"]) :=
  send_message_running_dispatch
    ⟨fun _ => true, fun _ => Except.error "", fun _ => true,
     fun _ => Manager.StopOutcome.ok, fun _ => false⟩
    { reg := [("a", { agent_id := "a", container_id := some "c6",
                      container_name := "agent-a", port := 9005,
                      status := "running", created_at := 0,
                      last_activity := 0, data_dir := none })],
      portCounter := 9000 }
    "a" "ping" none none false none 100
    { agent_id := "a", container_id := some "c6",
      container_name := "agent-a", port := 9005, status := "running",
      created_at := 0, last_activity := 100, data_dir := none }
    { reg := [("a", { agent_id := "a", container_id := some "c6",
                      container_name := "agent-a", port := 9005,
                      status := "running", created_at := 0,
                      last_activity := 100, data_dir := none })],
      portCounter := 9000 }
    [Manager.Ev.registrySave
       [("a", { agent_id := "a", container_id := some "c6",
                container_name := "agent-a", port := 9005,
                status := "running", created_at := 0,
                last_activity := 100, data_dir := none })]]
    rfl rfl
